import Mathlib

/-!
Verification development for the diagnostic-driven source-rewriting tool
(three Python fixer scripts: `fix-assertions.py`, `fix-final-imports.py`,
`fix-ts18046.py`).

The scripts operate on file contents as strings, using Python `re`
substitutions and `str` operations.  Each specific regular expression used
by the scripts is compiled here, by hand, into an explicit scanner over
`List Char`; the generic driver `PyRe.subn` reproduces `re.subn` semantics
(leftmost, non-overlapping matches, scanning resumed after each match,
every match counted even when the replacement text equals the matched
text).  String containment and `str.replace` are modelled by
`PyRe.pyContains` and `PyRe.pyReplace` (the scripts only call `replace`
with a non-empty pattern).
-/

namespace PyRe

abbrev Chars := List Char

/-- Python re `\w` (ASCII range, as used on identifier names). -/
def isWordChar (c : Char) : Bool :=
  (Char.ofNat 97 ≤ c && c ≤ Char.ofNat 122) ||
  (Char.ofNat 65 ≤ c && c ≤ Char.ofNat 90) ||
  (Char.ofNat 48 ≤ c && c ≤ Char.ofNat 57) || c = Char.ofNat 95

/-- Python re `\s` (ASCII whitespace: space, tab, newline, CR, VT, FF). -/
def isSpaceChar (c : Char) : Bool :=
  c = Char.ofNat 32 || c = Char.ofNat 9 || c = Char.ofNat 10 ||
  c = Char.ofNat 13 || c = Char.ofNat 11 || c = Char.ofNat 12

/-- The apostrophe character, used by the assertion patterns. -/
def quoteChar : Char := Char.ofNat 39

/-- Result of one pattern match attempt at the head of the remaining
input: the replacement text and the number of source characters the match
consumed (always at least one for the patterns modelled here). -/
structure MatchRes where
  repl : Chars
  consumed : Nat
deriving DecidableEq

/-- `prevIsWord` reports whether the character preceding the current
position is a word character (`false` at the start of the string). -/
def prevIsWord : Option Char → Bool
  | none => false
  | some c => isWordChar c

/-- Python re `\b` between the previous character and next character `c`:
exactly one side is a word character. -/
def boundary (prev : Option Char) (c : Char) : Bool :=
  prevIsWord prev != isWordChar c

/-- Drop an expected literal from the head of the input, or fail. -/
def dropLit (lit s : Chars) : Option Chars :=
  if lit.isPrefixOf s then some (s.drop lit.length) else none

/-- `re.subn` driver: scan left to right; at each position attempt the
matcher (which also receives the previous character, for `\b`); on a
match, emit the replacement, count it, and resume scanning after the
matched characters; otherwise copy one character.  The fuel argument is
initialised to the input length, which suffices because every matcher
modelled here consumes at least one character. -/
def subnAux (tm : Option Char → Chars → Option MatchRes) :
    Nat → Option Char → Chars → Chars × Nat
  | _, _, [] => ([], 0)
  | 0, _, s => (s, 0)
  | fuel + 1, prev, c :: t =>
    match tm prev (c :: t) with
    | some m =>
      let consumedChars := (c :: t).take m.consumed
      let rest := (c :: t).drop m.consumed
      let r := subnAux tm fuel consumedChars.getLast? rest
      (m.repl ++ r.1, r.2 + 1)
    | none =>
      let r := subnAux tm fuel (some c) t
      (c :: r.1, r.2)

/-- `re.subn pattern repl s` for one of the modelled patterns. -/
def subn (tm : Option Char → Chars → Option MatchRes) (s : Chars) : Chars × Nat :=
  subnAux tm s.length none s

/-- Python `needle in hay` on strings. -/
def containsSub (needle : Chars) : Chars → Bool
  | [] => needle.isEmpty
  | c :: t => needle.isPrefixOf (c :: t) || containsSub needle t

/-- Python `needle in hay` on `String`. -/
def pyContains (hay needle : String) : Bool :=
  containsSub needle.data hay.data

/-- Python `s.replace(old, new)` for non-empty `old` (the only use in the
scripts): replace every non-overlapping occurrence, left to right.  Fuel
is the input length; each step consumes at least one character. -/
def replaceAllAux (old new : Chars) : Nat → Chars → Chars
  | _, [] => []
  | 0, s => s
  | fuel + 1, c :: t =>
    if old ≠ [] ∧ old.isPrefixOf (c :: t) then
      new ++ replaceAllAux old new fuel ((c :: t).drop old.length)
    else
      c :: replaceAllAux old new fuel t

/-- Python `s.replace(old, new)` on `String`, `old` non-empty. -/
def pyReplace (s old new : String) : String :=
  ⟨replaceAllAux old.data new.data s.data.length s.data⟩

end PyRe

/-!
`fix-final-imports.py`.  Its single rule (`pattern1` in `fix_file`) is

  `import \{\s*\nimport type \{ Row \} from '@/lib/supabase/helpers'`

replaced by

  `import type { Row } from '@/lib/supabase/helpers'\nimport {`.

`\s*\n` greedily consumes the maximal whitespace run provided its last
character is a newline and the type-import literal follows directly.
-/

namespace FixImports

open PyRe

/-- The literal type-only import line named by the pattern. -/
def typeImportLit : Chars :=
  "import type \x7b Row \x7d from \x27@/lib/supabase/helpers\x27".data

/-- Matcher for the corrupted-import pattern of `fix-final-imports.py`. -/
def tryImportFix (_prev : Option Char) (s : Chars) : Option MatchRes := do
  let s1 ← dropLit "import \x7b".data s
  let ws := s1.takeWhile isSpaceChar
  if ws.getLast? = some (Char.ofNat 10) then
    let s2 ← dropLit typeImportLit (s1.drop ws.length)
    some ⟨typeImportLit ++ Char.ofNat 10 :: "import \x7b".data, s.length - s2.length⟩
  else
    none

/-- The in-memory rewrite performed by `fix_file` (the `re.sub` call). -/
def transform (content : String) : String :=
  ⟨(subn tryImportFix content.data).1⟩

/-- `fix_file` of `fix-final-imports.py`: returns whether the file was
written, and the content that ends up on disk. -/
def fix_file (content : String) : Bool × String :=
  let nc := transform content
  if nc ≠ content then (true, nc) else (false, content)

end FixImports

/-!
`fix-assertions.py`.  Three substitution passes over the whole content:

Pattern 1:
  `(\)) as \{ data: Row<'([^']+)'>(\[\])? \| null; error: any \}\s*\n(\s*)\.single\(\) as \{ data: Row<'\2'> \| null; error: any \}`
  replaced by `\1\n\4.single() as { data: Row<'\2'> | null; error: any }`.

Pattern 2, for each method m in the fixed list:
  `(\)) as \{ data: Row<'([^']+)'>(\[\])? \| null; error: any \}\s*\n(\s*)\.m\(`
  replaced by `\1\n\4.m(`.

Pattern 3 (catch-all), with a replacement function `check_and_replace`:
  `(\)) as \{ data: Row<'([^']+)'>(\[\])? \| null; error: any \}\s*\n(\s*)(\.[a-z_]+\()`.

All three share the same head; `parseHead` factors it out.  In
`\s*\n(\s*)` the greedy `\s*` backtracks to the last newline of the
whitespace run, so group 4 (the indent) is the whitespace after the last
newline.
-/

namespace FixAssertions

open PyRe

/-- Captured groups of the shared assertion-block head: the table
identifier (group 2), the optional `[]` (group 3, `[]` or empty as in
`match.group(3) or ''`), and the indent (group 4). -/
structure HeadGroups where
  table : Chars
  array : Chars
  indent : Chars
deriving DecidableEq

/-- Literal after the close-paren: ` as { data: Row<'`. -/
def headLit : Chars := " as \x7b data: Row<\x27".data

/-- Literal after the optional `[]`: ` | null; error: any }`. -/
def tailLit : Chars := " | null; error: any \x7d".data

/-- Parse the shared head of patterns 1-3 at the current position
(which must hold the close-paren).  Returns the groups and the rest of
the input after the captured indent. -/
def parseHead (s : Chars) : Option (HeadGroups × Chars) := do
  let s1 ← dropLit (Char.ofNat 41 :: headLit) s
  let table := s1.takeWhile (fun c => c ≠ quoteChar)
  if table = [] then none else
  let s2 ← dropLit (quoteChar :: ">".data) (s1.drop table.length)
  let array := if "[]".data.isPrefixOf s2 then "[]".data else []
  let s3 ← dropLit tailLit (s2.drop array.length)
  let ws := s3.takeWhile isSpaceChar
  let indent := (ws.reverse.takeWhile (fun c => c ≠ Char.ofNat 10)).reverse
  if ws.length = indent.length then none else
  some (⟨table, array, indent⟩, s3.drop ws.length)

/-- The `.single() as { data: Row<'T'> | null; error: any }` text for a
table `T`; both the tail of pattern 1 and the re-emitted assertion of
replacement 1. -/
def singleTail (table : Chars) : Chars :=
  ".single() as \x7b data: Row<\x27".data ++ table ++ "\x27> | null; error: any \x7d".data

/-- Matcher for pattern 1 (assertion before a `.single()` call carrying
an assertion on the same table, enforced by the backreference `\2`). -/
def tryPattern1 (_prev : Option Char) (s : Chars) : Option MatchRes := do
  let (g, r1) ← parseHead s
  let r2 ← dropLit (singleTail g.table) r1
  some ⟨Char.ofNat 41 :: Char.ofNat 10 :: (g.indent ++ singleTail g.table),
        s.length - r2.length⟩

/-- The fixed method list of pattern 2, in source order. -/
def methods : List Chars :=
  ["or", "order", "limit", "range", "gte", "lte", "gt", "lt", "not",
   "in", "contains", "filter"].map String.data

/-- Matcher for pattern 2 with method `m`. -/
def tryPattern2 (m : Chars) (_prev : Option Char) (s : Chars) : Option MatchRes := do
  let (g, r1) ← parseHead s
  let r2 ← dropLit (Char.ofNat 46 :: m ++ [Char.ofNat 40]) r1
  some ⟨Char.ofNat 41 :: Char.ofNat 10 :: (g.indent ++ Char.ofNat 46 :: m ++ [Char.ofNat 40]),
        s.length - r2.length⟩

/-- `[a-z_]` as in pattern 3's `\.[a-z_]+\(`. -/
def isLowerUnder (c : Char) : Bool :=
  (Char.ofNat 97 ≤ c && c ≤ Char.ofNat 122) || c = Char.ofNat 95

/-- The allow-list tuple tested by `next_method.startswith(...)` in
`check_and_replace`. -/
def allowTuple : List Chars :=
  [".or(", ".order(", ".limit(", ".range(", ".gte(", ".lte(", ".gt(",
   ".lt(", ".not(", ".in(", ".contains(", ".filter("].map String.data

/-- `check_and_replace` of `fix-assertions.py`, on the match groups:
group 1 `paren`, group 2 `table`, group 3 `array` (possibly empty),
group 4 `indent`, group 5 `next_method`, and `whole` = `match.group(0)`. -/
def check_and_replace (paren table array indent next_method whole : Chars) : Chars :=
  if next_method = ".single(".data ∧ array ≠ [] then
    paren ++ Char.ofNat 10 :: (indent ++ next_method)
  else if allowTuple.any (fun p => p.isPrefixOf next_method) then
    paren ++ Char.ofNat 10 :: (indent ++ next_method)
  else
    whole

/-- Matcher for pattern 3; its replacement is `check_and_replace`
(`table` is unused there but passed, as in the source). -/
def tryPattern3 (_prev : Option Char) (s : Chars) : Option MatchRes := do
  let (g, r1) ← parseHead s
  match r1 with
  | c :: r2 =>
    if c = Char.ofNat 46 then
      let nm := r2.takeWhile isLowerUnder
      if nm = [] then none else
      match dropLit [Char.ofNat 40] (r2.drop nm.length) with
      | some r3 =>
        let consumed := s.length - r3.length
        let next_method := Char.ofNat 46 :: nm ++ [Char.ofNat 40]
        some ⟨check_and_replace [Char.ofNat 41] g.table g.array g.indent
                next_method (s.take consumed), consumed⟩
      | none => none
    else none
  | [] => none

/-- The in-memory rewrite of `fix_file`: pattern 1, then the pattern-2
loop over `methods`, then pattern 3, accumulating the `fixes` count. -/
def transform (content : Chars) : Chars × Nat :=
  let r1 := subn tryPattern1 content
  let r2 := methods.foldl
    (fun acc m =>
      let r := subn (tryPattern2 m) acc.1
      (r.1, acc.2 + r.2))
    r1
  let r3 := subn tryPattern3 r2.1
  (r3.1, r2.2 + r3.2)

/-- `transform` on `String`. -/
def transformS (content : String) : String × Nat :=
  let r := transform content.data
  (⟨r.1⟩, r.2)

/-- `fix_file` of `fix-assertions.py`: `(wrote, fixes returned, content
on disk)`; the file is written, and the fix count reported, only when the
content changed. -/
def fix_file (content : String) : Bool × Nat × String :=
  let r := transformS content
  if r.1 ≠ content then (true, r.2, r.1) else (false, 0, content)

end FixAssertions

/-!
`fix-ts18046.py`.  Diagnostic-driven: for each error record (parsed from
`file(line,col): error TS18046: 'var' is of type 'unknown'`) the script
indexes the file's line list with the zero-based `line - 1` (Python
indexing, so `-1` denotes the last line), guarded only by
`if line_idx >= len(lines): continue`, and rewrites the line through
three classification branches dispatched in order on: the identifier
name, the presence of a map/filter/forEach call, and a property access.
The whole per-file loop runs under one `try`; an `IndexError` (possible
for `line = 0` on an empty file) aborts the file, modelled as `none`.
-/

namespace FixTs18046

open PyRe

/-- One diagnostic record as produced by `read_errors` (`file` is the
grouping key and is dropped here; `line` is 1-based as parsed). -/
structure TsError where
  line : Nat
  col : Nat
  var : String
deriving DecidableEq

/-- Python list indexing: resolve a possibly negative index into a
position, `none` when out of range (an `IndexError`). -/
def pyIndex (len : Nat) (i : Int) : Option Nat :=
  if 0 ≤ i then
    if i < (len : Int) then some i.toNat else none
  else
    if 0 ≤ (len : Int) + i then some ((len : Int) + i).toNat else none

/-- `lines[i]` with Python index semantics. -/
def pyGetI (l : List String) (i : Int) : Option String :=
  match pyIndex l.length i with
  | some n => l[n]?
  | none => none

/-- `lines[i] = a` with Python index semantics. -/
def pySetI (l : List String) (i : Int) (a : String) : Option (List String) :=
  match pyIndex l.length i with
  | some n => some (l.set n a)
  | none => none

/-- Branch 1 (`var_name in ['error', 'err', 'e']`): replace
`var.message` accesses, else cast any other property access, each under
its idempotence guard. -/
def handle_error_name (line v : String) (modified : Bool) : String × Bool :=
  if pyContains line (v ++ ".message") &&
     !pyContains line ("(" ++ v ++ " as Error)") then
    (pyReplace line (v ++ ".message") ("(" ++ v ++ " as Error).message"), true)
  else if pyContains line (v ++ ".") &&
          !pyContains line ("(" ++ v ++ " as Error)") &&
          !pyContains line ("(" ++ v ++ " as any)") then
    (⟨(subn (fun prev s =>
        match v.data with
        | [] => none
        | v0 :: _ =>
          if boundary prev v0 then
            match dropLit (v.data ++ [Char.ofNat 46]) s with
            | some _ => some ⟨("(" ++ v ++ " as Error).").data, v.data.length + 1⟩
            | none => none
          else none) line.data).1⟩, true)
  else (line, modified)

/-- The `re.sub(rf'\({v}\s*=>', f'({v}: any =>', line)` matcher of
branch 2. -/
def tryParenArrow (v : Chars) (_prev : Option Char) (s : Chars) : Option MatchRes := do
  let s1 ← dropLit (Char.ofNat 40 :: v) s
  let ws := s1.takeWhile isSpaceChar
  let s2 ← dropLit "=>".data (s1.drop ws.length)
  some ⟨Char.ofNat 40 :: v ++ ": any =>".data, s.length - s2.length⟩

/-- The `re.sub(rf'\b{v}\s*=>', f'({v}: any) =>', line)` matcher of
branch 2. -/
def tryWordArrow (v : Chars) (prev : Option Char) (s : Chars) : Option MatchRes :=
  match v with
  | [] => none
  | v0 :: _ =>
    if boundary prev v0 then
      match dropLit v s with
      | some s1 =>
        let ws := s1.takeWhile isSpaceChar
        match dropLit "=>".data (s1.drop ws.length) with
        | some s2 => some ⟨Char.ofNat 40 :: v ++ ": any) =>".data, s.length - s2.length⟩
        | none => none
      | none => none
    else none

/-- Branch 2 (map/filter/forEach lines): annotate the callback
parameter, first the form directly after an open paren, then the bare
form, under the `'{v}: any' not in line` guard. -/
def handle_callback (line v : String) (modified : Bool) : String × Bool :=
  if !pyContains line (v ++ ": any") then
    let line1 : String := ⟨(subn (tryParenArrow v.data) line.data).1⟩
    let line2 : String := ⟨(subn (tryWordArrow v.data) line1.data).1⟩
    (line2, true)
  else (line, modified)

/-- Branch 3 (general unknown variables): cast every word-boundary
`v.` access to `(v as any).`, under its guard. -/
def handle_general (line v : String) (modified : Bool) : String × Bool :=
  if pyContains line (v ++ ".") && !pyContains line ("(" ++ v ++ " as any)") then
    (⟨(subn (fun prev s =>
        match v.data with
        | [] => none
        | v0 :: _ =>
          if boundary prev v0 then
            match dropLit (v.data ++ [Char.ofNat 46]) s with
            | some _ => some ⟨("(" ++ v ++ " as any).").data, v.data.length + 1⟩
            | none => none
          else none) line.data).1⟩, true)
  else (line, modified)

/-- The loop body's classification of one line for one error record:
branch 1 is entered whenever the identifier is an error-binding name,
branch 2 whenever the line calls map/filter/forEach, branch 3 on a
remaining property access; otherwise the line and flag are unchanged. -/
def process_line (line v : String) (modified : Bool) : String × Bool :=
  if v = "error" ∨ v = "err" ∨ v = "e" then
    handle_error_name line v modified
  else if pyContains line ".map(" || pyContains line ".filter(" ||
          pyContains line ".forEach(" then
    handle_callback line v modified
  else
    handle_general line v modified

/-- One iteration of the error loop in `fix_file`: the
`line_idx >= len(lines)` guard skips the record, otherwise the line is
read, classified, and written back at the same index; `none` models the
`IndexError` escaping to the outer handler. -/
def run_one (st : List String × Bool) (err : TsError) : Option (List String × Bool) :=
  if (st.1.length : Int) ≤ (err.line : Int) - 1 then some st
  else
    match pyGetI st.1 ((err.line : Int) - 1) with
    | none => none
    | some line =>
      match pySetI st.1 ((err.line : Int) - 1) (process_line line err.var st.2).1 with
      | none => none
      | some lines2 => some (lines2, (process_line line err.var st.2).2)

/-- The error loop of `fix_file`. -/
def run_errors : List TsError → List String × Bool → Option (List String × Bool)
  | [], st => some st
  | e :: rest, st =>
    match run_one st e with
    | none => none
    | some st2 => run_errors rest st2

/-- `fix_file` of `fix-ts18046.py` on a file's lines (as read by
`readlines`, newline terminators included) and its grouped error records:
`some (lines, modified)` on normal completion; the file is written (with
exactly these lines) precisely when `modified` is true. -/
def fix_file (lines : List String) (errors : List TsError) :
    Option (List String × Bool) :=
  run_errors errors (lines, false)

end FixTs18046

/-!
Per-file error handling and batch continuation.  Each script wraps its
`fix_file` body in `try/except Exception as e`; `fix-assertions.py` and
`fix-ts18046.py` print the handler line to stderr, `fix-final-imports.py`
prints it with no `file=` argument, i.e. to stdout.  Each `main` loops
over the file list unconditionally, so a failed file never stops the
batch; `process_all` models one pass over files given as
`(path, read result)` pairs.
-/

/-- Output stream of a printed line. -/
inductive Channel
  | stdout
  | stderr
deriving DecidableEq

/-- One line printed by an error handler. -/
structure OutLine where
  chan : Channel
  text : String
deriving DecidableEq

namespace FixAssertions

/-- `fix_file` including its `except` handler: for a failed read, one
stderr line `Error processing {path}: {msg}` and the `False, 0` result. -/
def run_on_file (path : String) (readRes : Except String String) :
    (Bool × Nat) × List OutLine :=
  match readRes with
  | Except.ok content =>
    let r := fix_file content
    ((r.1, r.2.1), [])
  | Except.error msg =>
    ((false, 0), [⟨Channel.stderr, "Error processing " ++ path ++ ": " ++ msg⟩])

/-- The `main` loop over all target files. -/
def process_all (files : List (String × Except String String)) :
    List ((Bool × Nat) × List OutLine) :=
  files.map (fun pr => run_on_file pr.1 pr.2)

end FixAssertions

namespace FixImports

/-- `fix_file` including its `except` handler: the handler line goes to
stdout (its `print` has no `file=` argument). -/
def run_on_file (path : String) (readRes : Except String String) :
    Bool × List OutLine :=
  match readRes with
  | Except.ok content => ((fix_file content).1, [])
  | Except.error msg =>
    (false, [⟨Channel.stdout, "Error processing " ++ path ++ ": " ++ msg⟩])

/-- The `main` loop over all target files. -/
def process_all (files : List (String × Except String String)) :
    List (Bool × List OutLine) :=
  files.map (fun pr => run_on_file pr.1 pr.2)

end FixImports

namespace FixTs18046

/-- `fix_file` including its `except` handler: a failed read, or an
`IndexError` from `lines[-1]` on an empty file (Python message
`list index out of range`), yields one stderr line
`Error fixing {path}: {msg}`. -/
def run_on_file (path : String) (readRes : Except String (List String))
    (errs : List TsError) : Bool × List OutLine :=
  match readRes with
  | Except.ok lines =>
    match fix_file lines errs with
    | some (_, m) => (m, [])
    | none =>
      (false, [⟨Channel.stderr, "Error fixing " ++ path ++ ": list index out of range"⟩])
  | Except.error msg =>
    (false, [⟨Channel.stderr, "Error fixing " ++ path ++ ": " ++ msg⟩])

/-- The `main` loop over the grouped files. -/
def process_all (files : List (String × Except String (List String) × List TsError)) :
    List (Bool × List OutLine) :=
  files.map (fun pr => run_on_file pr.1 pr.2.1 pr.2.2)

end FixTs18046

/-!
Concrete inputs used by the claims: the spec's scenario inputs and the
probing inputs on which the claims are settled.
-/

namespace Inputs

/-- Scenario 1 input of the spec (assertion before the matching-table
`.single()` assertion, array-typed). -/
def assertScenario : String :=
  ".eq(\x27id\x27, id) as \x7b data: Row<\x27users\x27>[] | null; error: any \x7d\n  .single() as \x7b data: Row<\x27users\x27> | null; error: any \x7d"

/-- Scenario 1 expected output. -/
def assertScenarioFixed : String :=
  ".eq(\x27id\x27, id)\n  .single() as \x7b data: Row<\x27users\x27> | null; error: any \x7d"

/-- Array-typed assertion for table `users` before a `.single()` call
asserting a different table `other`. -/
def divergentArray : String :=
  ".eq(\x27id\x27, id) as \x7b data: Row<\x27users\x27>[] | null; error: any \x7d\n  .single() as \x7b data: Row<\x27other\x27> | null; error: any \x7d"

/-- What the fixer produces on `divergentArray`: the first assertion is
removed although the table identifiers diverge. -/
def divergentArrayFixed : String :=
  ".eq(\x27id\x27, id)\n  .single() as \x7b data: Row<\x27other\x27> | null; error: any \x7d"

/-- Non-array assertion for `users` before a `.single()` call asserting
`other`. -/
def divergentPlain : String :=
  ".eq(\x27id\x27, id) as \x7b data: Row<\x27users\x27> | null; error: any \x7d\n  .single() as \x7b data: Row<\x27other\x27> | null; error: any \x7d"

/-- Assertion block followed by a chained call (`.then(`) outside the
allow-list. -/
def blockThen : String :=
  ".eq(\x27id\x27, id) as \x7b data: Row<\x27users\x27>[] | null; error: any \x7d\n  .then(handle)"

/-- Scenario 4 input of the spec (one corrupted import block). -/
def importScenario : String :=
  "import \x7b\nimport type \x7b Row \x7d from \x27@/lib/supabase/helpers\x27"

/-- Scenario 4 expected output. -/
def importScenarioFixed : String :=
  "import type \x7b Row \x7d from \x27@/lib/supabase/helpers\x27\nimport \x7b"

/-- Stacked import corruption: the corrupted block with a second copy of
the type-only import line after it. -/
def importStacked : String :=
  "import \x7b\nimport type \x7b Row \x7d from \x27@/lib/supabase/helpers\x27\nimport type \x7b Row \x7d from \x27@/lib/supabase/helpers\x27"

/-- One application of the import fixer to `importStacked`: the swap
re-creates the corruption pattern in front of the second copy. -/
def importStackedOnce : String :=
  "import type \x7b Row \x7d from \x27@/lib/supabase/helpers\x27\nimport \x7b\nimport type \x7b Row \x7d from \x27@/lib/supabase/helpers\x27"

/-- A second application changes the content again. -/
def importStackedTwice : String :=
  "import type \x7b Row \x7d from \x27@/lib/supabase/helpers\x27\nimport type \x7b Row \x7d from \x27@/lib/supabase/helpers\x27\nimport \x7b"

/-- Scenario 3 line of the spec. -/
def mapLine : String := "items.map(x => x.id)\n"

/-- What the fixer actually produces on `mapLine`. -/
def mapLineFixed : String := "items.map(x: any => x.id)\n"

/-- The parenthesized callback-parameter form. -/
def parenMapLine : String := "items.map((x) => x.id)\n"

/-- A map line whose callback parameter is the error-binding name `e`
with no property access on it. -/
def errMapLine : String := "items.map(e => getId())\n"

/-- A line matching both the branch-1 and branch-2 triggers. -/
def errBothLine : String := "items.map(e => e.message)\n"

/-- Branch 1's rewrite of `errBothLine`. -/
def errBothLineFixed : String := "items.map(e => (e as Error).message)\n"

/-- A line whose only `e.message` occurrence is embedded in
`response.message`. -/
def respLine : String := "console.log(response.message)\n"

/-- The rewrite of `respLine` for diagnosed identifier `e`. -/
def respLineFixed : String := "console.log(respons(e as Error).message)\n"

/-- A line with two occurrences of the substring `e.message`, one
embedded in a longer identifier. -/
def twoOccLine : String := "log(response.message, e.message)\n"

/-- The rewrite of `twoOccLine` for diagnosed identifier `e`. -/
def twoOccLineFixed : String := "log(respons(e as Error).message, (e as Error).message)\n"

end Inputs

/-!
Helper lemmas shared by the claim theorems.
-/

set_option maxRecDepth 100000

theorem list_set_of_getElem {α : Type} : ∀ (l : List α) (n : Nat) (a : α),
    l[n]? = some a → l.set n a = l
  | [], _, _, h => by simp at h
  | b :: t, 0, a, h => by
    simp at h
    simp [List.set, h]
  | b :: t, n + 1, a, h => by
    simp at h
    simp [List.set, list_set_of_getElem t n a h]

theorem process_line_of_flag_false (line v : String) (m : Bool)
    (h : (FixTs18046.process_line line v m).2 = false) :
    (FixTs18046.process_line line v m).1 = line ∧ m = false := by
  unfold FixTs18046.process_line FixTs18046.handle_error_name
    FixTs18046.handle_callback FixTs18046.handle_general at h ⊢
  split_ifs at h ⊢ <;> simp_all

theorem pySetI_of_pyGetI (l : List String) (i : Int) (line : String)
    (h : FixTs18046.pyGetI l i = some line) :
    FixTs18046.pySetI l i line = some l := by
  unfold FixTs18046.pyGetI at h
  unfold FixTs18046.pySetI
  cases hp : FixTs18046.pyIndex l.length i with
  | none => rw [hp] at h; simp at h
  | some n =>
    rw [hp] at h
    simp at h ⊢
    exact list_set_of_getElem l n line h

theorem run_one_of_flag_false (st : List String × Bool) (e : FixTs18046.TsError)
    (st2 : List String × Bool) (h : FixTs18046.run_one st e = some st2)
    (h2 : st2.2 = false) : st2.1 = st.1 ∧ st.2 = false := by
  unfold FixTs18046.run_one at h
  split at h
  · obtain rfl : st = st2 := by injection h
    exact ⟨rfl, h2⟩
  · cases hg : FixTs18046.pyGetI st.1 ((e.line : Int) - 1) with
    | none => rw [hg] at h; exact absurd h (by simp)
    | some line =>
      rw [hg] at h
      dsimp only at h
      cases hs : FixTs18046.pySetI st.1 ((e.line : Int) - 1)
          (FixTs18046.process_line line e.var st.2).1 with
      | none => rw [hs] at h; exact absurd h (by simp)
      | some lines2 =>
        rw [hs] at h
        obtain rfl : (lines2, (FixTs18046.process_line line e.var st.2).2) = st2 := by
          injection h
        obtain ⟨h3, h4⟩ := process_line_of_flag_false line e.var st.2 h2
        rw [h3] at hs
        rw [pySetI_of_pyGetI st.1 _ _ hg] at hs
        obtain rfl : st.1 = lines2 := by injection hs
        exact ⟨rfl, h4⟩

theorem run_errors_of_flag_false : ∀ (errs : List FixTs18046.TsError)
    (st st2 : List String × Bool), FixTs18046.run_errors errs st = some st2 →
    st2.2 = false → st2.1 = st.1 ∧ st.2 = false
  | [], st, st2, h, h2 => by
    obtain rfl : st = st2 := by
      unfold FixTs18046.run_errors at h
      injection h
    exact ⟨rfl, h2⟩
  | e :: rest, st, st2, h, h2 => by
    unfold FixTs18046.run_errors at h
    cases hr : FixTs18046.run_one st e with
    | none => rw [hr] at h; exact absurd h (by simp)
    | some st1 =>
      rw [hr] at h
      obtain ⟨ha, hb⟩ := run_errors_of_flag_false rest st1 st2 h h2
      obtain ⟨hc, hd⟩ := run_one_of_flag_false st e st1 hr hb
      exact ⟨ha.trans hc, hd⟩

/-!
Claim theorems.
-/

/-- C1: on input `items.map(x => x.id)` with a diagnostic naming `x` as
unknown on line 1, the unknown-type fixer rewrites the line to
`items.map(x: any => x.id)` — not the claimed well-parenthesized
`items.map((x: any) => x.id)` — because the first branch-2 substitution
`\(x\s*=>` → `(x: any =>` fires on the call's own open paren and carries
no closing paren; and the parenthesized form `(x) =>` matches neither
branch-2 regex and is left unchanged (while still marking the file
modified). -/
theorem claim_c1_code_eval :
    FixTs18046.fix_file [Inputs.mapLine] [⟨1, 11, "x"⟩] =
      some ([Inputs.mapLineFixed], true) ∧
    Inputs.mapLineFixed ≠ "items.map((x: any) => x.id)\n" ∧
    FixTs18046.fix_file [Inputs.parenMapLine] [⟨1, 11, "x"⟩] =
      some ([Inputs.parenMapLine], true) := by
  refine ⟨by decide, by decide, by decide⟩

/-- C2 counterexample: the unknown-type fixer writes the file whenever
its `modified` flag is set; on `items.map((x) => x.id)` with diagnostic
identifier `x`, branch 2 executes, neither of its substitutions changes
the line, yet `modified` is true, so the byte-identical content is
written back — contradicting the claimed write-iff-changed invariant. -/
theorem claim_c2_counterexample :
    FixTs18046.fix_file [Inputs.parenMapLine] [⟨1, 11, "x"⟩] =
      some ([Inputs.parenMapLine], true) := by
  decide

/-- C2 amended: the assertion-cleanup and import fixers write back if and
only if the rewritten content differs from the original; the unknown-type
fixer writes iff its `modified` flag is set, which is implied by any
content change but can also hold when the content is unchanged. -/
theorem claim_c2_amended :
    (∀ c : String,
      (FixAssertions.fix_file c).1 = true ↔ (FixAssertions.fix_file c).2.2 ≠ c) ∧
    (∀ c : String,
      (FixImports.fix_file c).1 = true ↔ (FixImports.fix_file c).2 ≠ c) ∧
    (∀ (lines : List String) (errs : List FixTs18046.TsError)
      (res : List String × Bool),
      FixTs18046.fix_file lines errs = some res → res.1 ≠ lines → res.2 = true) ∧
    FixTs18046.fix_file [Inputs.parenMapLine] [⟨1, 11, "x"⟩] =
      some ([Inputs.parenMapLine], true) := by
  refine ⟨?_, ?_, ?_, by decide⟩
  · intro c
    unfold FixAssertions.fix_file
    dsimp only
    split_ifs with h <;> simp [h]
  · intro c
    unfold FixImports.fix_file
    dsimp only
    split_ifs with h <;> simp [h]
  · intro lines errs res h hne
    by_contra hf
    have hfalse : res.2 = false := by revert hf; cases res.2 <;> simp
    obtain ⟨ha, _⟩ := run_errors_of_flag_false errs (lines, false) res h hfalse
    exact hne ha

/-- C2 witness: the content-change-implies-flag conjunct of the amended
claim, instantiated at the one-line file `e.message` with diagnostic
identifier `e` (rewritten to `(e as Error).message`). -/
theorem claim_c2_amended_witness :
    ((["(e as Error).message\n"], true) : List String × Bool).2 = true :=
  claim_c2_amended.2.2.1 ["e.message\n"] [⟨1, 13, "e"⟩]
    (["(e as Error).message\n"], true) (by decide) (by decide)

/-- C3 counterexample: an array-typed assertion for table `users`
immediately before a `.single()` call asserting table `other` is removed
by the catch-all pattern 3 (which never inspects the second table), so
the assertion block is rewritten although the table identifiers
diverge — contradicting the claim that divergent blocks are left
untouched. -/
theorem claim_c3_counterexample :
    FixAssertions.fix_file Inputs.divergentArray =
      (true, 1, Inputs.divergentArrayFixed) ∧
    Inputs.divergentArrayFixed ≠ Inputs.divergentArray := by
  refine ⟨by decide, by decide⟩

/-- C3 amended: pattern 1 (the backreferenced rewrite) only fires when
the two table identifiers agree, and the catch-all's `.single(` branch
leaves non-array assertions untouched, so a diverging non-array block
survives; but the catch-all removes an array-typed assertion before any
`.single(` call without receiving — let alone comparing — the table
identifier of the assertion on the `.single()` line. -/
theorem claim_c3_amended :
    (∀ paren table array indent whole : PyRe.Chars, array = [] →
      FixAssertions.check_and_replace paren table array indent
        ".single(".data whole = whole) ∧
    (∀ paren table array indent whole : PyRe.Chars, array ≠ [] →
      FixAssertions.check_and_replace paren table array indent
        ".single(".data whole =
        paren ++ Char.ofNat 10 :: (indent ++ ".single(".data)) ∧
    FixAssertions.fix_file Inputs.divergentPlain =
      (false, 0, Inputs.divergentPlain) := by
  refine ⟨?_, ?_, by decide⟩
  · intro paren table array indent whole h
    unfold FixAssertions.check_and_replace
    rw [if_neg (by simp [h]), if_neg (by decide)]
  · intro paren table array indent whole h
    unfold FixAssertions.check_and_replace
    rw [if_pos ⟨rfl, h⟩]

/-- C3 witness: the array-typed `.single(` branch of the amended claim at
concrete groups (table `users`, indent of two spaces). -/
theorem claim_c3_amended_witness :
    FixAssertions.check_and_replace [Char.ofNat 41] "users".data "[]".data
      "  ".data ".single(".data Inputs.divergentArray.data =
      [Char.ofNat 41] ++ Char.ofNat 10 :: ("  ".data ++ ".single(".data) :=
  claim_c3_amended.2.1 [Char.ofNat 41] "users".data "[]".data "  ".data
    Inputs.divergentArray.data (by decide)

/-- C4 counterexample: on `items.map(e => getId())` with diagnosed
identifier `e` — an error-binding name with no property access, on a line
matching branch 2's trigger — the fixer leaves the line unchanged with
the modified flag still false (branch 1 captures the record by name
alone), whereas branch 2's transformation would have rewritten the line;
so the claim that such a line receives branch 2's transformation is
false. -/
theorem claim_c4_counterexample :
    FixTs18046.fix_file [Inputs.errMapLine] [⟨1, 11, "e"⟩] =
      some ([Inputs.errMapLine], false) ∧
    FixTs18046.handle_callback Inputs.errMapLine "e" false =
      ("items.map(e: any => getId())\n", true) ∧
    "items.map(e: any => getId())\n" ≠ Inputs.errMapLine := by
  refine ⟨by decide, by decide, by decide⟩

/-- C4 amended: branch 1's trigger is the identifier name alone — every
record whose identifier is `error`, `err` or `e` is handled by branch 1,
so branches 2 and 3 are never consulted for it even when branch 1's inner
conditions all fail (in which case the line and flag are unchanged); a
line matching both the branch-1 and branch-2 triggers receives branch 1's
transformation. -/
theorem claim_c4_amended :
    (∀ (line : String) (m : Bool) (v : String),
      v = "error" ∨ v = "err" ∨ v = "e" →
      FixTs18046.process_line line v m = FixTs18046.handle_error_name line v m) ∧
    FixTs18046.process_line Inputs.errMapLine "e" false =
      (Inputs.errMapLine, false) ∧
    FixTs18046.process_line Inputs.errBothLine "e" false =
      (Inputs.errBothLineFixed, true) := by
  refine ⟨?_, by decide, by decide⟩
  intro line m v h
  unfold FixTs18046.process_line
  rw [if_pos h]

/-- C4 witness: the dispatch conjunct of the amended claim at the
concrete map line and identifier `e`. -/
theorem claim_c4_amended_witness :
    FixTs18046.process_line Inputs.errMapLine "e" false =
      FixTs18046.handle_error_name Inputs.errMapLine "e" false :=
  claim_c4_amended.1 Inputs.errMapLine false "e" (Or.inr (Or.inr rfl))

/-- C5: `check_and_replace` returns the matched text unchanged whenever
the following call is not `.single(`-with-array and does not start with
any allow-list entry, so an assertion block whose following chained call
is outside the fixed allow-list is left textually untouched (patterns 1
and 2 cannot fire there, since they hard-code allow-listed methods); and
end to end, a block followed by `.then(` survives the whole fixer
byte-identically. -/
theorem claim_c5_allow_list :
    (∀ paren table array indent nm whole : PyRe.Chars,
      FixAssertions.allowTuple.any (fun p => p.isPrefixOf nm) = false →
      ¬(nm = ".single(".data ∧ array ≠ []) →
      FixAssertions.check_and_replace paren table array indent nm whole = whole) ∧
    FixAssertions.fix_file Inputs.blockThen = (false, 0, Inputs.blockThen) := by
  refine ⟨?_, by decide⟩
  intro paren table array indent nm whole h1 h2
  unfold FixAssertions.check_and_replace
  rw [if_neg h2, if_neg (by simp [h1])]

/-- C5 witness: the untouched case at concrete groups with following
call `.then(`. -/
theorem claim_c5_allow_list_witness :
    FixAssertions.check_and_replace [Char.ofNat 41] "users".data "[]".data
      "  ".data ".then(".data Inputs.blockThen.data = Inputs.blockThen.data :=
  claim_c5_allow_list.1 [Char.ofNat 41] "users".data "[]".data "  ".data
    ".then(".data Inputs.blockThen.data (by decide) (by decide)

/-- C6 counterexample: the import fixer is not idempotent — on a
corrupted block stacked with a second copy of the type-only import line,
the first application re-creates the corruption pattern and the second
application changes the content again. -/
theorem claim_c6_counterexample :
    FixImports.transform Inputs.importStacked = Inputs.importStackedOnce ∧
    FixImports.transform Inputs.importStackedOnce = Inputs.importStackedTwice ∧
    Inputs.importStackedTwice ≠ Inputs.importStackedOnce := by
  refine ⟨by decide, by decide, by decide⟩

/-- C6 amended: one application need not reach a fixed point in general
(stacked corruption can require a second pass), but on the spec's
scenario inputs each rule family is stable: re-applying the assertion
fixer, the import fixer, and the unknown-type fixer (with the same
diagnostic) to their first outputs changes nothing. -/
theorem claim_c6_amended :
    FixAssertions.transformS Inputs.assertScenario =
      (Inputs.assertScenarioFixed, 1) ∧
    FixAssertions.transformS Inputs.assertScenarioFixed =
      (Inputs.assertScenarioFixed, 0) ∧
    FixImports.transform Inputs.importScenario = Inputs.importScenarioFixed ∧
    FixImports.transform Inputs.importScenarioFixed = Inputs.importScenarioFixed ∧
    FixTs18046.fix_file [Inputs.mapLine] [⟨1, 11, "x"⟩] =
      some ([Inputs.mapLineFixed], true) ∧
    FixTs18046.fix_file [Inputs.mapLineFixed] [⟨1, 11, "x"⟩] =
      some ([Inputs.mapLineFixed], false) := by
  refine ⟨by decide, by decide, by decide, by decide, by decide, by decide⟩

/-- C7 counterexample: the import fixer's per-file error handler prints
its one line (`Error processing {path}: {msg}`) to stdout, not stderr —
its `print` call has no `file=` argument — so the claim that every fixer
logs the error line to stderr is false. -/
theorem claim_c7_counterexample :
    FixImports.run_on_file "lib/a.ts" (Except.error "boom") =
      (false, [⟨Channel.stdout, "Error processing lib/a.ts: boom"⟩]) ∧
    Channel.stdout ≠ Channel.stderr := by
  refine ⟨rfl, by decide⟩

/-- C7 amended: for a file whose read fails, each fixer emits exactly one
handler line containing the file path and the error message — to stderr
for the assertion-cleanup and unknown-type fixers, to stdout for the
imports fixer — and in every fixer's batch loop a failing file leaves the
processing of the remaining files unaffected. -/
theorem claim_c7_amended :
    (∀ p m : String, FixAssertions.run_on_file p (Except.error m) =
      ((false, 0), [⟨Channel.stderr, "Error processing " ++ p ++ ": " ++ m⟩])) ∧
    (∀ (p m : String) (errs : List FixTs18046.TsError),
      FixTs18046.run_on_file p (Except.error m) errs =
        (false, [⟨Channel.stderr, "Error fixing " ++ p ++ ": " ++ m⟩])) ∧
    (∀ p m : String, FixImports.run_on_file p (Except.error m) =
      (false, [⟨Channel.stdout, "Error processing " ++ p ++ ": " ++ m⟩])) ∧
    (∀ (p m : String) (rest : List (String × Except String String)),
      FixAssertions.process_all ((p, Except.error m) :: rest) =
        FixAssertions.run_on_file p (Except.error m) ::
          FixAssertions.process_all rest) ∧
    (∀ (p m : String) (rest : List (String × Except String String)),
      FixImports.process_all ((p, Except.error m) :: rest) =
        FixImports.run_on_file p (Except.error m) ::
          FixImports.process_all rest) ∧
    (∀ (p m : String) (errs : List FixTs18046.TsError)
      (rest : List (String × Except String (List String) × List FixTs18046.TsError)),
      FixTs18046.process_all ((p, Except.error m, errs) :: rest) =
        FixTs18046.run_on_file p (Except.error m) errs ::
          FixTs18046.process_all rest) := by
  exact ⟨fun _ _ => rfl, fun _ _ _ => rfl, fun _ _ => rfl,
         fun _ _ _ => rfl, fun _ _ _ => rfl, fun _ _ _ _ => rfl⟩

/-- C8: the assertion fixer on the spec's Scenario 1 two-line input
removes the array-typed assertion from the first line and leaves the
`.single()` line unchanged, reporting one fix and a write. -/
theorem claim_c8_scenario :
    FixAssertions.fix_file Inputs.assertScenario =
      (true, 1, Inputs.assertScenarioFixed) := by
  decide

/-- C9: for every diagnosed identifier `v` among error/err/e and every
line containing the substring `v.message` with no existing `(v as Error)`
cast, branch 1 rewrites the line by `pyReplace` — the embedding of plain
`str.replace`, which substitutes every non-overlapping occurrence of the
substring left to right with no word-boundary check — with the target
`(v as Error).message` and sets the modified flag; in particular, for
identifier `e`, a line containing only `response.message` becomes
`respons(e as Error).message`, and on a line with an embedded and a free
occurrence both are replaced. -/
theorem claim_c9_no_word_boundary :
    (∀ (line v : String) (m : Bool),
      v = "error" ∨ v = "err" ∨ v = "e" →
      PyRe.pyContains line (v ++ ".message") = true →
      PyRe.pyContains line ("(" ++ v ++ " as Error)") = false →
      FixTs18046.process_line line v m =
        (PyRe.pyReplace line (v ++ ".message") ("(" ++ v ++ " as Error).message"),
         true)) ∧
    FixTs18046.fix_file [Inputs.respLine] [⟨1, 13, "e"⟩] =
      some ([Inputs.respLineFixed], true) ∧
    FixTs18046.fix_file [Inputs.twoOccLine] [⟨1, 5, "e"⟩] =
      some ([Inputs.twoOccLineFixed], true) := by
  refine ⟨?_, by decide, by decide⟩
  intro line v m h h1 h2
  unfold FixTs18046.process_line
  rw [if_pos h]
  unfold FixTs18046.handle_error_name
  rw [if_pos (by simp [h1, h2])]

/-- C9 witness: the universal conjunct at the concrete line
`console.log(response.message)` and identifier `e` (the occurrence of
`e.message` is embedded in `response.message`). -/
theorem claim_c9_no_word_boundary_witness :
    FixTs18046.process_line Inputs.respLine "e" false =
      (PyRe.pyReplace Inputs.respLine ("e" ++ ".message")
        ("(" ++ "e" ++ " as Error).message"), true) :=
  claim_c9_no_word_boundary.1 Inputs.respLine "e" false (Or.inr (Or.inr rfl))
    (by decide) (by decide)

/-- C10: a diagnostic record whose 1-based line number exceeds the line
count is skipped, leaving lines and flag unchanged; a record with line
number 0 resolves to Python index `-1`, so the classification runs on
the file's last line and the result is written back there. -/
theorem claim_c10_line_bounds :
    (∀ (lines : List String) (m : Bool) (e : FixTs18046.TsError),
      lines.length < e.line →
      FixTs18046.run_one (lines, m) e = some (lines, m)) ∧
    (∀ (lines : List String) (m : Bool) (e : FixTs18046.TsError) (last : String),
      e.line = 0 → lines[lines.length - 1]? = some last →
      FixTs18046.run_one (lines, m) e =
        some (lines.set (lines.length - 1)
                (FixTs18046.process_line last e.var m).1,
              (FixTs18046.process_line last e.var m).2)) := by
  constructor
  · intro lines m e h
    unfold FixTs18046.run_one
    rw [if_pos (show ((lines).length : Int) ≤ (e.line : Int) - 1 by omega)]
  · intro lines m e last h0 hl
    have hlen : 1 ≤ lines.length := by
      rcases lines with _ | ⟨a, t⟩
      · simp at hl
      · simp
    have hidx : FixTs18046.pyIndex lines.length ((e.line : Int) - 1) =
        some (lines.length - 1) := by
      unfold FixTs18046.pyIndex
      rw [h0]
      rw [if_neg (by omega), if_pos (by omega)]
      congr 1
      omega
    unfold FixTs18046.run_one
    rw [if_neg (by rw [h0]; push_cast; omega)]
    unfold FixTs18046.pyGetI FixTs18046.pySetI
    rw [hidx]
    dsimp only
    rw [hl]

/-- C10 witness: the two conjuncts at a concrete two-line file — a record
for line 5 is skipped; a record for line 0 rewrites the last line. -/
theorem claim_c10_line_bounds_witness :
    FixTs18046.run_one (["a\n", "items.map(x => x.id)\n"], false) ⟨5, 1, "x"⟩ =
      some (["a\n", "items.map(x => x.id)\n"], false) ∧
    FixTs18046.run_one (["a\n", "items.map(x => x.id)\n"], false) ⟨0, 1, "x"⟩ =
      some (["a\n", "items.map(x: any => x.id)\n"], true) := by
  constructor
  · exact claim_c10_line_bounds.1 ["a\n", "items.map(x => x.id)\n"] false
      ⟨5, 1, "x"⟩ (by decide)
  · have h := claim_c10_line_bounds.2 ["a\n", "items.map(x => x.id)\n"] false
      ⟨0, 1, "x"⟩ "items.map(x => x.id)\n" rfl (by decide)
    exact h.trans (by decide)
